import Mathlib

/-!
Shallow embedding of `src/main.rs` of the esp-vision repository: a CAMShift
tracking demo.  The program registers a mouse callback `on_mouse` that records
a drag-selected rectangle in a shared `SelectionStatus`, and runs a main loop
that, on a committed selection, builds a hue histogram and a tracking window,
and while tracking calls the external `camshift` primitive and writes the
centroid of the result's bounding rectangle to a TCP socket.

The vision library (`rust_vision`) is an external collaborator: its
operations (histogram computation/normalization, back-projection, camshift,
bounding rectangle of the rotated result box) are modelled as an opaque
environment `VisionEnv` of arbitrary functions, parameterized over the frame
type `F` and histogram type `H`.  The fixed convergence criterion
(`TermCriteria::new(TermType::Count, 10, 1.0)`, line 166) is a constant
argument of the opaque camshift call and is absorbed into the environment
function.

Machine integers: all coordinates are Rust `i32` pixel coordinates inside a
display window, far from the `i32` boundaries, so they are modelled as `Int`
with exact arithmetic; Rust's `i32` division `/` truncates toward zero and is
modelled by `Int.tdiv`.
-/

namespace EspVision

/-- Rust `Rect` (from the vision library): a plain record of four `i32`
fields, `Copy`, with `Rect::default()` all zeros. -/
structure Rect where
  x : Int
  y : Int
  width : Int
  height : Int
  deriving DecidableEq, Repr

/-- `Rect::default()`: all fields zero (lines 109 and 127). -/
def Rect.rdefault : Rect := { x := 0, y := 0, width := 0, height := 0 }

/-- `SelectionStatus` (lines 69-72): the region users have selected for
tracking, plus the "new selection ready" flag. -/
structure SelectionStatus where
  selection : Rect
  status : Bool
  deriving DecidableEq, Repr

/-- The mouse event kinds the callback distinguishes (lines 79-97): the
`match` has arms for `LButtonDown`, `LButtonUp`, and a catch-all `_`. -/
inductive MouseEventTypes where
  | lButtonDown (x y : Int)
  | lButtonUp (x y : Int)
  | other
  deriving DecidableEq, Repr

/-- The mouse callback `on_mouse` (lines 77-99) as a state transformer on the
shared `SelectionStatus`:
  - `LButtonDown`: store the coordinates as the rectangle origin
    (lines 83-84); width, height and status are left as they were;
  - `LButtonUp`: overwrite width and height with `x - selection.x` and
    `y - selection.y` (lines 90-91); if both are strictly positive, set the
    status flag (lines 93-95); otherwise the flag keeps its previous value;
  - any other event: no-op (line 97). -/
def on_mouse (e : MouseEventTypes) (s : SelectionStatus) : SelectionStatus :=
  match e with
  | .lButtonDown x y =>
      { s with selection := { s.selection with x := x, y := y } }
  | .lButtonUp x y =>
      let width := x - s.selection.x
      let height := y - s.selection.y
      let selection := { s.selection with width := width, height := height }
      if width > 0 ∧ height > 0 then
        { selection := selection, status := true }
      else
        { selection := selection, status := s.status }
  | .other => s

/-- A sequence of mouse events applied in order to a `SelectionStatus`. -/
def runMouse (events : List MouseEventTypes) (s : SelectionStatus) :
    SelectionStatus :=
  events.foldl (fun st e => on_mouse e st) s

/-- The opaque external vision library surface the loop consumes, over a
frame type `F` and a histogram type `H`:
  - `emptyHist` models `Mat::new()` (line 123), the histogram before any
    selection commit;
  - `calcHistNorm frame sel` models lines 144-153: crop hue and mask to the
    selection, `calc_hist` with 16 buckets over hue range [0,180), then
    `normalize(0, 255, NormMinMax)`;
  - `camshiftBounding frame hist window` models lines 162-169:
    `calc_back_project` of hue against `hist`, `logic_and` with the
    saturation/value mask, `camshift` seeded with `window` under the fixed
    criterion, then `bounding_rect()` of the rotated result box. -/
structure VisionEnv (F H : Type) where
  emptyHist : H
  calcHistNorm : F → Rect → H
  camshiftBounding : F → H → Rect → Rect

/-- The mutable state of `main` that survives a loop iteration
(lines 108-127): the shared `SelectionStatus`, `is_tracking`, `hist`, and
`track_window`. -/
structure LoopState (H : Type) where
  ss : SelectionStatus
  is_tracking : Bool
  hist : H
  track_window : Rect

/-- The state of `main` just before the loop (lines 108-127):
`selection: Rect::default(), status: false`, `is_tracking = false`,
`hist = Mat::new()`, `track_window = Rect::default()`. -/
def initState {F H : Type} (env : VisionEnv F H) : LoopState H :=
  { ss := { selection := Rect.rdefault, status := false }
    is_tracking := false
    hist := env.emptyHist
    track_window := Rect.rdefault }

/-- A mouse event delivered while the loop state is `l` only mutates the
shared `SelectionStatus` through the registered callback (line 118); the
other loop variables are locals of `main` the callback cannot reach. -/
def mouseOnLoop {H : Type} (e : MouseEventTypes) (l : LoopState H) :
    LoopState H :=
  { l with ss := on_mouse e l.ss }

/-- The selection-commit block (lines 141-159): when the status flag is set,
recompute the histogram from the current frame restricted to the selection,
adopt the selection as the tracking window, clear the flag and start
tracking; otherwise leave the state untouched. -/
def commitPhase {F H : Type} (env : VisionEnv F H) (frame : F)
    (s : LoopState H) : LoopState H :=
  if s.ss.status then
    { ss := { selection := s.ss.selection, status := false }
      is_tracking := true
      hist := env.calcHistNorm frame s.ss.selection
      track_window := s.ss.selection }
  else
    s

/-- The centroid computation of lines 171-173:
`(bounding.x + bounding.width / 2, bounding.y + bounding.height / 2)` with
Rust `i32` division, which truncates toward zero. -/
def centroid (bounding : Rect) : Int × Int :=
  (bounding.x + Int.tdiv bounding.width 2,
   bounding.y + Int.tdiv bounding.height 2)

/-- The telemetry line built on lines 171-174:
the centroid x, `" "`, the centroid y, `" \n"`. -/
def fmtLine (c : Int × Int) : String :=
  toString c.1 ++ " " ++ toString c.2 ++ " \n"

/-- The observable effects of one loop iteration:
  - `camshiftSeed`: the search window passed to `camshift` (line 167), if the
    tracking branch ran;
  - `bounding`: the bounding rectangle of the camshift result (line 169), if
    the tracking branch ran;
  - `drawn`: the rectangles drawn on the frame (lines 156 and 170);
  - `writes`: the strings passed to `stream.write` (line 175), in order. -/
structure StepOut where
  camshiftSeed : Option Rect
  bounding : Option Rect
  drawn : List Rect
  writes : List String
  deriving DecidableEq, Repr

/-- One iteration of the main loop (lines 129-179) on the surviving state.
`writeOk` is whether the socket write of this iteration would succeed; the
code discards the write's `Result` with `.ok()` (line 175), so neither the
resulting state nor the outputs depend on it.  frame acquisition, flip,
color conversion, channel mixing and masking (lines 130-139) produce the
data consumed by the opaque `VisionEnv` functions and are absorbed into
them. -/
def loopStep {F H : Type} (env : VisionEnv F H) (frame : F) (_writeOk : Bool)
    (s : LoopState H) : LoopState H × StepOut :=
  let s1 := commitPhase env frame s
  if s1.is_tracking then
    let bounding := env.camshiftBounding frame s1.hist s1.track_window
    let msg := fmtLine (centroid bounding)
    (s1,
      { camshiftSeed := some s1.track_window
        bounding := some bounding
        drawn := (if s.ss.status then [s.ss.selection] else []) ++ [bounding]
        writes := [msg] })
  else
    (s1,
      { camshiftSeed := none
        bounding := none
        drawn := if s.ss.status then [s.ss.selection] else []
        writes := [] })

/-- Iterating the loop over a list of frames, keeping only the state. -/
def runLoop {F H : Type} (env : VisionEnv F H) (frames : List F)
    (s : LoopState H) : LoopState H :=
  frames.foldl (fun st f => (loopStep env f true st).1) s

/-- Startup of `main` before the loop, as a function of the two
environment-given outcomes: whether `TcpStream::connect("127.0.0.1:8001")`
succeeds (lines 104-106) and whether `VideoCapture::new(0).is_open()` holds
(lines 114-115).  `.ok().expect(...)` panics with the given message;
`assert!` panics with the assertion text. -/
def startup (connectOk capOpen : Bool) : Except String Unit :=
  if connectOk then
    if capOpen then Except.ok () else
      Except.error ("assertion failed: cap.is_open()")
  else
    Except.error ("The server is not on")

/-- The `SelectionStatus` built on lines 108-111:
`selection: Rect::default(), status: false`. -/
def initSelectionStatus : SelectionStatus :=
  { selection := Rect.rdefault, status := false }

/-- The two mouse events of a drag from `(x0, y0)` to `(x1, y1)`. -/
def dragEvents (x0 y0 x1 y1 : Int) : List MouseEventTypes :=
  [.lButtonDown x0 y0, .lButtonUp x1 y1]

/-- A sequence of mouse events delivered while the loop state is `l`. -/
def runMouseOnLoop {H : Type} (events : List MouseEventTypes)
    (l : LoopState H) : LoopState H :=
  events.foldl (fun st e => mouseOnLoop e st) l

/-- A concrete environment over `F = Nat`, `H = Nat` used to evaluate the
loop on explicit inputs: its camshift result is a translate of the seed
window, so result and seed differ. -/
def envC : VisionEnv Nat Nat :=
  { emptyHist := 0
    calcHistNorm := fun _ _ => 1
    camshiftBounding := fun _ _ r =>
      { x := r.x + 1, y := r.y + 2, width := r.width, height := r.height } }

/-- A concrete loop state with a committed selection pending. -/
def committedState : LoopState Nat :=
  { ss := { selection := { x := 10, y := 10, width := 50, height := 70 }
            status := true }
    is_tracking := false
    hist := 0
    track_window := Rect.rdefault }

/-- A concrete loop state with tracking active and no pending selection. -/
def trackingState : LoopState Nat :=
  { ss := initSelectionStatus
    is_tracking := true
    hist := 5
    track_window := { x := 1, y := 2, width := 3, height := 4 } }

/-! ## Helper lemmas -/

/-- Rust's truncating `i32` division agrees with floor division on
non-negative numerators. -/
lemma tdiv_two_eq_fdiv {a : Int} (h : 0 ≤ a) : Int.tdiv a 2 = Int.fdiv a 2 := by
  obtain ⟨n, rfl⟩ := Int.eq_ofNat_of_zero_le h
  cases n <;> rfl

/-- One loop iteration is tracking afterwards exactly when it was tracking
before or a selection was pending. -/
lemma loopStep_fst_is_tracking {F H : Type} (env : VisionEnv F H) (frame : F)
    (w : Bool) (s : LoopState H) :
    (loopStep env frame w s).1.is_tracking = (s.is_tracking || s.ss.status) := by
  cases hb : s.ss.status <;> cases ht : s.is_tracking <;>
    simp [loopStep, commitPhase, hb, ht]

/-- When no selection is pending, a loop iteration leaves the surviving
state exactly as it was. -/
lemma loopStep_fst_of_status_false {F H : Type} (env : VisionEnv F H)
    (frame : F) (w : Bool) (s : LoopState H) (h : s.ss.status = false) :
    (loopStep env frame w s).1 = s := by
  cases ht : s.is_tracking <;> simp [loopStep, commitPhase, h, ht]

/-! ## Claims -/

/-- C1: for every drag with strictly positive extent — `LButtonDown` at
`(x0, y0)` then `LButtonUp` at `(x1, y1)` with `x1 > x0` and `y1 > y0`,
delivered to the mouse callback over a shared `SelectionStatus` — the
callback leaves the status flag true and the selection rectangle equal to
`{x0, y0, x1 - x0, y1 - y0}`. -/
theorem positive_drag_commits_selection (s : SelectionStatus)
    (x0 y0 x1 y1 : Int) (hx : x0 < x1) (hy : y0 < y1) :
    (runMouse (dragEvents x0 y0 x1 y1) s).status = true ∧
    (runMouse (dragEvents x0 y0 x1 y1) s).selection =
      { x := x0, y := y0, width := x1 - x0, height := y1 - y0 } := by
  simp only [runMouse, dragEvents, List.foldl, on_mouse]
  rw [if_pos ⟨by omega, by omega⟩]
  exact ⟨rfl, rfl⟩

theorem positive_drag_commits_selection_witness :
    (runMouse (dragEvents 10 10 60 80) initSelectionStatus).status = true ∧
    (runMouse (dragEvents 10 10 60 80) initSelectionStatus).selection =
      { x := 10, y := 10, width := 50, height := 70 } := by
  simpa using
    positive_drag_commits_selection initSelectionStatus 10 10 60 80
      (by decide) (by decide)

/-- C2: for every drag with non-positive extent — `LButtonDown` at
`(x0, y0)` then `LButtonUp` at `(x1, y1)` with `x1 ≤ x0` or `y1 ≤ y0` —
delivered while the ready flag is false, the flag remains false, the
committed tracking window, histogram and tracking mode are unchanged, and
the next loop iteration leaves the whole surviving state unchanged (no
error is reported anywhere: the callback and the loop are total). -/
theorem degenerate_drag_leaves_state {F H : Type} (env : VisionEnv F H)
    (frame : F) (w : Bool) (l : LoopState H) (x0 y0 x1 y1 : Int)
    (hdeg : x1 ≤ x0 ∨ y1 ≤ y0) (h0 : l.ss.status = false) :
    (runMouseOnLoop (dragEvents x0 y0 x1 y1) l).ss.status = false ∧
    (runMouseOnLoop (dragEvents x0 y0 x1 y1) l).track_window =
      l.track_window ∧
    (runMouseOnLoop (dragEvents x0 y0 x1 y1) l).hist = l.hist ∧
    (runMouseOnLoop (dragEvents x0 y0 x1 y1) l).is_tracking =
      l.is_tracking ∧
    (loopStep env frame w (runMouseOnLoop (dragEvents x0 y0 x1 y1) l)).1 =
      runMouseOnLoop (dragEvents x0 y0 x1 y1) l := by
  have hstatus :
      (runMouseOnLoop (dragEvents x0 y0 x1 y1) l).ss.status = false := by
    simp only [runMouseOnLoop, dragEvents, List.foldl, mouseOnLoop, on_mouse]
    rw [if_neg (by omega)]
    exact h0
  refine ⟨hstatus, rfl, rfl, rfl, ?_⟩
  exact loopStep_fst_of_status_false env frame w _ hstatus

theorem degenerate_drag_leaves_state_witness :
    (runMouseOnLoop (dragEvents 5 5 5 9) trackingState).ss.status = false ∧
    (runMouseOnLoop (dragEvents 5 5 5 9) trackingState).track_window =
      trackingState.track_window ∧
    (runMouseOnLoop (dragEvents 5 5 5 9) trackingState).hist =
      trackingState.hist ∧
    (runMouseOnLoop (dragEvents 5 5 5 9) trackingState).is_tracking =
      trackingState.is_tracking ∧
    (loopStep envC 0 true (runMouseOnLoop (dragEvents 5 5 5 9)
        trackingState)).1 =
      runMouseOnLoop (dragEvents 5 5 5 9) trackingState :=
  degenerate_drag_leaves_state envC 0 true trackingState 5 5 5 9
    (Or.inl (by decide)) rfl

/-- C7 counterexample: the claimed invariant "whenever the ready flag is
true, the stored rectangle has strictly positive width and height" fails
over the mouse-event sequence down(0,0), up(5,5), down(3,3), up(1,1) from
the initial `SelectionStatus`: the first drag sets the flag, the second,
degenerate one overwrites width and height with -2 but leaves the flag
set. -/
theorem ready_flag_positive_invariant_cex :
    (runMouse [.lButtonDown 0 0, .lButtonUp 5 5,
               .lButtonDown 3 3, .lButtonUp 1 1]
       initSelectionStatus).status = true ∧
    ¬ ((runMouse [.lButtonDown 0 0, .lButtonUp 5 5,
                  .lButtonDown 3 3, .lButtonUp 1 1]
          initSelectionStatus).selection.width > 0 ∧
       (runMouse [.lButtonDown 0 0, .lButtonUp 5 5,
                  .lButtonDown 3 3, .lButtonUp 1 1]
          initSelectionStatus).selection.height > 0) := by
  decide

/-- C7 (amended): the event that sets the ready flag establishes the
invariant — whenever a mouse event turns the ready flag from false to true,
the stored selection rectangle has strictly positive width and strictly
positive height.  (A later degenerate button-up can overwrite the rectangle
while leaving an already-set flag true, so the invariant holds at every
flag-setting event but not at every later point.) -/
theorem flag_set_establishes_positive (s : SelectionStatus)
    (e : MouseEventTypes) (h0 : s.status = false)
    (h1 : (on_mouse e s).status = true) :
    (on_mouse e s).selection.width > 0 ∧
    (on_mouse e s).selection.height > 0 := by
  cases e with
  | lButtonDown x y => simp [on_mouse] at h1; simp [h1] at h0
  | lButtonUp x y =>
      by_cases hc : x - s.selection.x > 0 ∧ y - s.selection.y > 0
      · simp only [on_mouse]
        rw [if_pos hc]
        exact hc
      · simp only [on_mouse] at h1
        rw [if_neg hc] at h1
        simp [h0] at h1
  | other => simp [on_mouse] at h1; simp [h1] at h0

theorem flag_set_establishes_positive_witness :
    (on_mouse (.lButtonUp 5 7) initSelectionStatus).selection.width > 0 ∧
    (on_mouse (.lButtonUp 5 7) initSelectionStatus).selection.height > 0 :=
  flag_set_establishes_positive initSelectionStatus (.lButtonUp 5 7)
    rfl (by decide)

/-- C9: an `LButtonUp` delivered with no preceding `LButtonDown` pairs with
the default-initialized origin `(0, 0)`: for any `(x, y)` with `x > 0` and
`y > 0`, a first-ever button-up at `(x, y)` on the initial
`SelectionStatus` commits a ready selection rectangle `{0, 0, x, y}`. -/
theorem first_buttonup_default_origin (x y : Int) (hx : 0 < x)
    (hy : 0 < y) :
    on_mouse (.lButtonUp x y) initSelectionStatus =
      { selection := { x := 0, y := 0, width := x, height := y }
        status := true } := by
  simp only [on_mouse, initSelectionStatus, Rect.rdefault]
  rw [if_pos ⟨by omega, by omega⟩]
  simp

theorem first_buttonup_default_origin_witness :
    on_mouse (.lButtonUp 60 80) initSelectionStatus =
      { selection := { x := 0, y := 0, width := 60, height := 80 }
        status := true } :=
  first_buttonup_default_origin 60 80 (by decide) (by decide)

/-- C10: an `LButtonUp` with non-positive extent still overwrites the
stored rectangle's width and height with the computed (zero or negative)
values; only the ready flag is guarded by the positivity check, so the
rectangle fields are not left unchanged on a degenerate release. -/
theorem degenerate_release_overwrites_rect (s : SelectionStatus)
    (x y : Int) (h : x - s.selection.x ≤ 0 ∨ y - s.selection.y ≤ 0) :
    on_mouse (.lButtonUp x y) s =
      { selection := { x := s.selection.x, y := s.selection.y
                       width := x - s.selection.x
                       height := y - s.selection.y }
        status := s.status } := by
  simp only [on_mouse]
  rw [if_neg (by omega)]

theorem degenerate_release_overwrites_rect_witness :
    on_mouse (.lButtonUp 5 5)
        { selection := { x := 5, y := 5, width := 9, height := 9 }
          status := true } =
      { selection := { x := 5, y := 5, width := 0, height := 0 }
        status := true } := by
  have h := degenerate_release_overwrites_rect
    { selection := { x := 5, y := 5, width := 9, height := 9 }
      status := true } 5 5 (Or.inl (by decide))
  rw [h]
  decide

/-- C3 counterexample: the bounding rectangle of one iteration's camshift
result is NOT used as the search window of the next iteration's camshift
call.  `track_window` is passed to `camshift` by value (line 167) and is
never reassigned in the tracking branch, so in the concrete run below the
first iteration's result bounding rectangle is `{11, 12, 50, 70}` while the
second iteration's camshift call is still seeded with the committed
selection `{10, 10, 50, 70}`. -/
theorem bounding_not_next_seed_cex :
    (loopStep envC 0 true committedState).2.bounding =
      some { x := 11, y := 12, width := 50, height := 70 } ∧
    (loopStep envC 1 true
        ((loopStep envC 0 true committedState).1)).2.camshiftSeed =
      some { x := 10, y := 10, width := 50, height := 70 } ∧
    ({ x := 11, y := 12, width := 50, height := 70 } : Rect) ≠
      { x := 10, y := 10, width := 50, height := 70 } := by
  decide

/-- C3 (amended): in every loop iteration where tracking is active, the
camshift call is seeded with the stored tracking window, which equals the
most recently committed selection rectangle; the bounding rectangle of the
camshift result is used only for drawing and the centroid and is never
written back to the tracking window, so it does not seed the next
iteration (no update rule at all, rather than a verbatim one). -/
theorem track_window_and_seed_from_commit {F H : Type} (env : VisionEnv F H)
    (frame : F) (w : Bool) (s : LoopState H) :
    (loopStep env frame w s).1.track_window =
      (if s.ss.status then s.ss.selection else s.track_window) ∧
    (loopStep env frame w s).2.camshiftSeed =
      (if s.is_tracking || s.ss.status then
        some (if s.ss.status then s.ss.selection else s.track_window)
      else none) := by
  cases hb : s.ss.status <;> cases ht : s.is_tracking <;>
    simp [loopStep, commitPhase, hb, ht]

/-- C4: the tracking mode starts Idle (`is_tracking = false`); one loop
iteration is Tracking exactly when it was already Tracking or the ready
flag was set at its start (so Idle→Tracking and Tracking→Tracking are the
only transitions, both triggered exactly by the ready flag); once Tracking
the mode never returns to Idle over any run; and in an iteration with no
ready selection the whole surviving state — histogram and tracking window
included — is left unchanged. -/
theorem tracking_mode_transitions {F H : Type} (env : VisionEnv F H)
    (frame : F) (w : Bool) (s : LoopState H) (frames : List F) :
    (initState env).is_tracking = false ∧
    (loopStep env frame w s).1.is_tracking =
      (s.is_tracking || s.ss.status) ∧
    (s.ss.status = false → (loopStep env frame w s).1 = s) ∧
    (s.is_tracking = true → (runLoop env frames s).is_tracking = true) := by
  refine ⟨rfl, loopStep_fst_is_tracking env frame w s,
    loopStep_fst_of_status_false env frame w s, ?_⟩
  induction frames generalizing s with
  | nil => intro h; simpa [runLoop] using h
  | cons f fs ih =>
      intro h
      have hstep : (loopStep env f true s).1.is_tracking = true := by
        rw [loopStep_fst_is_tracking, h, Bool.true_or]
      simpa [runLoop] using ih ((loopStep env f true s).1) hstep

theorem tracking_mode_transitions_witness :
    (loopStep envC 0 true trackingState).1 = trackingState ∧
    (runLoop envC [0, 1] trackingState).is_tracking = true :=
  ⟨(tracking_mode_transitions envC 0 true trackingState [0, 1]).2.2.1 rfl,
   (tracking_mode_transitions envC 0 true trackingState [0, 1]).2.2.2 rfl⟩

/-- C5: for every bounding rectangle `{x, y, w, h}` produced by the tracker
(so with non-negative width and height), the reported centroid equals
`(x + w/2, y + h/2)` computed with integer floor division — the code's
truncating `i32` division agrees with floor division there, and the whole
computation is on integers, with no sub-pixel precision. -/
theorem centroid_floor_division (b : Rect) (hw : 0 ≤ b.width)
    (hh : 0 ≤ b.height) :
    centroid b =
      (b.x + Int.fdiv b.width 2, b.y + Int.fdiv b.height 2) := by
  simp only [centroid, tdiv_two_eq_fdiv hw, tdiv_two_eq_fdiv hh]

theorem centroid_floor_division_witness :
    centroid { x := 20, y := 30, width := 41, height := 20 } = (40, 40) := by
  have h := centroid_floor_division
    { x := 20, y := 30, width := 41, height := 20 } (by decide) (by decide)
  rw [h]
  decide

/-- C6: a loop iteration's outcome does not depend on whether the socket
write succeeds (the write's result is discarded with `.ok()`: no retry, no
buffering, no abort, no state change), and the strings written are exactly
one line `"<x> <y> \n"` — the centroid of the camshift result's bounding
rectangle formatted by `fmtLine` — when tracking is active this iteration,
and none otherwise. -/
theorem telemetry_single_line_best_effort {F H : Type} (env : VisionEnv F H)
    (frame : F) (s : LoopState H) (w1 w2 : Bool) :
    loopStep env frame w1 s = loopStep env frame w2 s ∧
    (loopStep env frame w1 s).2.writes =
      (if s.is_tracking || s.ss.status then
        [fmtLine (centroid (env.camshiftBounding frame
          (commitPhase env frame s).hist
          (commitPhase env frame s).track_window))]
      else []) := by
  refine ⟨rfl, ?_⟩
  cases hb : s.ss.status <;> cases ht : s.is_tracking <;>
    simp [loopStep, commitPhase, hb, ht]

/-- C8: at startup, before the loop, exactly two fatal preconditions are
checked: `startup` succeeds exactly when the telemetry socket connects and
the capture device opens; a failed connect aborts with "The server is not
on" (whatever the capture would have done), and a failed capture open
aborts with the assertion diagnostic.  The loop body `loopStep` takes
neither outcome as an input and is a total function, so neither condition
is re-checked or re-reported per frame. -/
theorem startup_preconditions (c o : Bool) :
    (startup c o = Except.ok () ↔ (c = true ∧ o = true)) ∧
    (startup false o = Except.error ("The server is not on")) ∧
    (startup true false =
      Except.error ("assertion failed: cap.is_open()")) := by
  cases c <;> cases o <;> simp [startup]

end EspVision
